import Mathlib

/-
Shallow embedding of rclrs/src/node/subscription.rs (ros2_rust).

The file under verification defines SubscriptionHandle (a lock-guarded
rcl_subscription_t together with a shared, lock-guarded rcl_node_t),
the generic Subscription<T> with its stored callback, construction
(Subscription::new), the data path (take), the type-erased execute, and
the Drop impl for SubscriptionHandle.

The middleware primitives (rcl_take, rcl_subscription_init,
rcl_subscription_fini) and the error taxonomy (crate::error) are external
collaborators of this file; they are modelled from the spec where noted.
Lock acquisition and release, and calls into the middleware, are recorded
as an event trace so that lock-discipline and call-shape properties can be
stated.
-/

namespace Rclrs

/-- Modelled from the spec: subscriber-specific classified error codes of
the error taxonomy (crate::error::SubscriberErrorCode, not among the
sources); the subscription data path distinguishes the no-data signal
SubscriptionTakeFailed from every other code. -/
inductive SubscriberErrorCode
  | SubscriptionInvalid
  | SubscriptionTakeFailed
  deriving DecidableEq

/-- Modelled from the spec: the classified error taxonomy
(crate::error::RclReturnCode, not among the sources): configuration
errors, registration failures, and middleware errors surfaced through
take, with the subscriber-specific codes as one variant. -/
inductive RclReturnCode
  | Error
  | Timeout
  | BadAlloc
  | InvalidArgument
  | Unsupported
  | AlreadyInit
  | NotInit
  | TopicNameInvalid
  | SubscriberError (code : SubscriberErrorCode)
  deriving DecidableEq

/-- The rmw quality-of-service wire structure (rmw_qos_profile_t);
field set abbreviated, enumeration fields carried as numbers. -/
structure RmwQosProfile where
  history : Nat
  depth : Nat
  reliability : Nat
  durability : Nat
  deriving DecidableEq

/-- The application-level quality-of-service profile (crate::qos::QoSProfile). -/
structure QoSProfile where
  history : Nat
  depth : Nat
  reliability : Nat
  durability : Nat
  deriving DecidableEq

/-- Modelled from the spec: the QoSProfile-to-rmw conversion (qos.into(),
crate::qos, not among the sources); the profile is an opaque configuration
transported verbatim, field for field, not interpreted. -/
def QoSProfile.into (q : QoSProfile) : RmwQosProfile :=
  ⟨q.history, q.depth, q.reliability, q.durability⟩

/-- The rcl subscription options structure (rcl_subscription_options_t):
a qos field plus further fields kept at their defaults; the non-qos
remainder is abbreviated to two representative fields. -/
structure RclSubscriptionOptions where
  qos : RmwQosProfile
  ignore_local_publications : Bool
  allocator : Nat
  deriving DecidableEq

/-- Modelled from the spec: the middleware default subscription options
(rcl_subscription_get_default_options), an opaque default value. -/
def rcl_subscription_get_default_options : RclSubscriptionOptions :=
  { qos := ⟨1, 10, 1, 2⟩, ignore_local_publications := false, allocator := 0 }

/-- One observable step of the subscription code: lock operations on the
subscription handle, the node handle and the callback cell, calls into
the middleware primitives (recording the arguments relevant to the
claims), and invocation of the user callback. -/
inductive Event
  | lockHandle
  | unlockHandle
  | lockNodeHandle
  | unlockNodeHandle
  | lockCallback
  | unlockCallback
  | rclTake (message_info : Option Unit) (allocation : Option Unit)
  | rclSubscriptionInit (options : RclSubscriptionOptions)
  | rclSubscriptionFini
  | invokeCallback
  deriving DecidableEq

/-- Modelled from the spec: the middleware-side state of one subscription
resource: the queue of pending wire messages, plus an injectable fault so
that every classified error the take primitive may return is covered. -/
structure RmwState (W : Type) where
  pending : List W
  fault : Option RclReturnCode
  deriving DecidableEq

/-- Modelled from the spec: the middleware take primitive (rcl_take).
Given the subscription resource state and the caller-allocated wire
buffer, it returns the status code (none meaning success, mirroring
RCL_RET_OK), the wire message written, and the successor state: a fault
is surfaced as that error; an empty queue is the no-data condition
RCL_RET_SUBSCRIPTION_TAKE_FAILED; otherwise the head message is written
and dequeued. The two metadata arguments (message info and allocation)
are accepted as optional and, when absent, no metadata is produced. -/
def rcl_take {W : Type} (st : RmwState W) (buf : W)
    (message_info : Option Unit) (allocation : Option Unit) :
    Option RclReturnCode × W × RmwState W :=
  match st.fault with
  | some e => (some e, buf, st)
  | none =>
    match st.pending with
    | [] => (some (RclReturnCode.SubscriberError
        SubscriberErrorCode.SubscriptionTakeFailed), buf, st)
    | w :: rest => (none, w, ⟨rest, none⟩)

/-- The Message trait surface used by subscription.rs: a default value of
the wire representation (RmwMsg::default) and the decode direction of the
codec contract (T::from_rmw_message). -/
structure MessageCodec (T W : Type) where
  rmwDefault : W
  from_rmw_message : W → T

/-- The mutable state reachable from one Subscription<T> value: the
middleware-side resource state behind the handle lock, the stored
callback (contents of the callback Mutex), and the callback closure's own
captured mutable state (it is an FnMut), threaded explicitly. -/
structure SubState (T W σ : Type) where
  rmw : RmwState W
  callback : T → σ → σ
  cbState : σ

/-- Subscription::take: allocate a default wire message, lock the handle,
call rcl_take with both metadata outputs passed as null, unlock (the
guard drops at end of scope), then classify: a nonzero status becomes
that error via .ok()?, success decodes the written wire message with
from_rmw_message. Returns the result, the successor state, and the event
trace. -/
def Subscription.take {T W σ : Type} (codec : MessageCodec T W)
    (s : SubState T W σ) :
    Except RclReturnCode T × SubState T W σ × List Event :=
  let rmw_message := codec.rmwDefault
  let res := rcl_take s.rmw rmw_message none none
  let tr : List Event := [Event.lockHandle, Event.rclTake none none,
    Event.unlockHandle]
  match res with
  | (some e, _, rmw2) => (Except.error e, { s with rmw := rmw2 }, tr)
  | (none, written, rmw2) =>
      (Except.ok (codec.from_rmw_message written), { s with rmw := rmw2 }, tr)

/-- SubscriptionBase::execute for Subscription<T>: call take; if it fails
with exactly SubscriberError(SubscriptionTakeFailed) return Ok(()) (the
spurious wakeup is swallowed); any other error is returned unchanged; on
success, lock the callback cell and invoke the callback once with the
decoded message (the FnMut may update its captured state), unlocking
afterwards. -/
def Subscription.execute {T W σ : Type} (codec : MessageCodec T W)
    (s : SubState T W σ) :
    Except RclReturnCode Unit × SubState T W σ × List Event :=
  match Subscription.take codec s with
  | (Except.error (RclReturnCode.SubscriberError
      SubscriberErrorCode.SubscriptionTakeFailed), s2, tr) =>
      (Except.ok (), s2, tr)
  | (Except.error e, s2, tr) => (Except.error e, s2, tr)
  | (Except.ok msg, s2, tr) =>
      (Except.ok (), { s2 with cbState := s2.callback msg s2.cbState },
        tr ++ [Event.lockCallback, Event.invokeCallback, Event.unlockCallback])

/-- The possible outcomes of Subscription::new as written: the
construction may panic (the source calls CString::new(topic).unwrap(),
which panics when the conversion fails), return an error, or return a
live subscription. -/
inductive NewResult (S : Type)
  | panicked
  | err (e : RclReturnCode)
  | ok (sub : S)

/-- CString::new (cstr_core): converting a string to the middleware wire
representation fails exactly when the string contains an embedded null
byte; otherwise it succeeds with the same bytes. -/
def CString.new (s : String) : Option String :=
  if s.data.contains (Char.ofNat 0) then none else some s

/-- Subscription::new: obtain a zero-initialized resource and the type
descriptor, convert the topic with CString::new and unwrap (panicking on
an embedded null byte, before any lock or middleware call), lock the node
handle, build default options overlaying the supplied qos, call
rcl_subscription_init (its result, a middleware decision, is the
initResult parameter; .ok()? aborts construction on an error), and on
success wrap the live resource and the callback. A fresh subscription
starts with an empty pending queue and no fault. -/
def Subscription.new {T W σ : Type} (topic : String) (qos : QoSProfile)
    (callback : T → σ → σ) (cbState : σ)
    (initResult : Option RclReturnCode) :
    NewResult (SubState T W σ) × List Event :=
  match CString.new topic with
  | none => (NewResult.panicked, [])
  | some _topic_c_string =>
    let subscription_options :=
      { rcl_subscription_get_default_options with qos := qos.into }
    let tr : List Event := [Event.lockNodeHandle,
      Event.rclSubscriptionInit subscription_options, Event.unlockNodeHandle]
    match initResult with
    | some e => (NewResult.err e, tr)
    | none =>
        let sub : SubState T W σ :=
          { rmw := ⟨[], none⟩, callback := callback, cbState := cbState }
        (NewResult.ok sub, tr)

/-- Drop for SubscriptionHandle: take exclusive access to the
subscription resource (get_mut on the owned Mutex, exclusivity given by
the mutable borrow), lock the node handle, call rcl_subscription_fini
once with both held, and discard its result (finiResult, a middleware
decision); drop returns normally regardless. -/
def SubscriptionHandle.drop (finiResult : Option RclReturnCode) :
    Unit × List Event :=
  let _ := finiResult
  ((), [Event.lockHandle, Event.lockNodeHandle, Event.rclSubscriptionFini,
    Event.unlockNodeHandle, Event.unlockHandle])

/-- Number of times the subscription handle lock is held after running a
trace (lockHandle increments, unlockHandle decrements). -/
def handleDepth (tr : List Event) : Nat :=
  tr.foldl (fun n e =>
    match e with
    | Event.lockHandle => n + 1
    | Event.unlockHandle => n - 1
    | _ => n) 0

/-- Number of times the node handle lock is held after running a trace. -/
def nodeHandleDepth (tr : List Event) : Nat :=
  tr.foldl (fun n e =>
    match e with
    | Event.lockNodeHandle => n + 1
    | Event.unlockNodeHandle => n - 1
    | _ => n) 0

/-- A concrete codec over numbers, for evaluating the definitions:
the wire default is 0 and decoding is the identity. -/
def natCodec : MessageCodec Nat Nat :=
  { rmwDefault := 0, from_rmw_message := fun w => w }

/-- A concrete subscription state with nothing pending and no fault;
the callback sums received values into its state. -/
def emptySub : SubState Nat Nat Nat :=
  { rmw := ⟨[], none⟩, callback := fun t n => n + t, cbState := 0 }

/-- A concrete subscription state with exactly one pending message 42. -/
def oneSub : SubState Nat Nat Nat :=
  { rmw := ⟨[42], none⟩, callback := fun t n => n + t, cbState := 0 }

/-- A concrete subscription state whose take fails with a non-benign
middleware fault. -/
def faultySub : SubState Nat Nat Nat :=
  { rmw := ⟨[], some RclReturnCode.Error⟩, callback := fun t n => n + t,
    cbState := 0 }

/-- A concrete quality-of-service profile. -/
def qosSensorData : QoSProfile :=
  { history := 1, depth := 5, reliability := 2, durability := 2 }

/-- C1: when take signals the no-data condition
SubscriberError SubscriptionTakeFailed, execute returns Ok(()) and does
not invoke the stored callback (no invokeCallback event, callback and
its state unchanged); and on a subscription with nothing pending and no
fault, take itself does return exactly that distinct error value. -/
theorem execute_swallows_no_data {T W σ : Type} (codec : MessageCodec T W)
    (s : SubState T W σ) :
    (s.rmw.pending = [] → s.rmw.fault = none →
      (Subscription.take codec s).1 = Except.error
        (RclReturnCode.SubscriberError
          SubscriberErrorCode.SubscriptionTakeFailed))
    ∧ ((Subscription.take codec s).1 = Except.error
        (RclReturnCode.SubscriberError
          SubscriberErrorCode.SubscriptionTakeFailed) →
      (Subscription.execute codec s).1 = Except.ok ()
      ∧ (Subscription.execute codec s).2.2.count Event.invokeCallback = 0
      ∧ (Subscription.execute codec s).2.1.callback = s.callback
      ∧ (Subscription.execute codec s).2.1.cbState = s.cbState) := by
  obtain ⟨⟨p, f⟩, cb, cbs⟩ := s
  constructor
  · intro hp hf
    subst hp
    subst hf
    rfl
  · intro h
    cases f with
    | some e =>
      have he : e = RclReturnCode.SubscriberError
          SubscriberErrorCode.SubscriptionTakeFailed := by
        simpa [Subscription.take, rcl_take] using h
      subst he
      exact ⟨rfl, rfl, rfl, rfl⟩
    | none =>
      cases p with
      | nil => exact ⟨rfl, rfl, rfl, rfl⟩
      | cons w rest => simp [Subscription.take, rcl_take] at h

/-- C1 witness: on the concrete empty subscription, take returns the
no-data error, execute returns Ok(()) with no callback invocation, and
the callback state is unchanged. -/
theorem execute_swallows_no_data_witness :
    (Subscription.take natCodec emptySub).1 = Except.error
      (RclReturnCode.SubscriberError
        SubscriberErrorCode.SubscriptionTakeFailed)
    ∧ (Subscription.execute natCodec emptySub).1 = Except.ok ()
    ∧ (Subscription.execute natCodec emptySub).2.2.count
        Event.invokeCallback = 0
    ∧ (Subscription.execute natCodec emptySub).2.1.cbState
        = emptySub.cbState := by
  have h1 := (execute_swallows_no_data natCodec emptySub).1 rfl rfl
  have h2 := (execute_swallows_no_data natCodec emptySub).2 h1
  exact ⟨h1, h2.1, h2.2.1, h2.2.2.2⟩

/-- C2: evaluating Subscription::new on a topic with an embedded null
byte: the construction panics (CString::new(topic).unwrap()) instead of
returning a classified configuration error, although no middleware call
is attempted (the trace is empty). This contradicts the specified
behaviour of failing with a configuration error. -/
theorem new_null_topic_panics :
    Subscription.new (T := Nat) (W := Nat) (σ := Nat) "bad\x00topic"
      qosSensorData (fun t n => n + t) 0 none
      = (NewResult.panicked, []) := by
  rfl

/-- C3: with exactly one pending message and no fault, execute returns
Ok(()), emits exactly one invokeCallback event, updates the callback
state by exactly one application of the stored callback to the decoded
message, leaves the stored callback unchanged, and the resulting state
accepts further take and execute calls (a further execute succeeds as a
no-op and a further take returns the distinct no-data error). -/
theorem execute_one_pending {T W σ : Type} (codec : MessageCodec T W)
    (s : SubState T W σ) (w : W)
    (hp : s.rmw.pending = [w]) (hf : s.rmw.fault = none) :
    (Subscription.execute codec s).1 = Except.ok ()
    ∧ (Subscription.execute codec s).2.2.count Event.invokeCallback = 1
    ∧ (Subscription.execute codec s).2.1.cbState
        = s.callback (codec.from_rmw_message w) s.cbState
    ∧ (Subscription.execute codec s).2.1.callback = s.callback
    ∧ (Subscription.execute codec (Subscription.execute codec s).2.1).1
        = Except.ok ()
    ∧ (Subscription.take codec (Subscription.execute codec s).2.1).1
        = Except.error (RclReturnCode.SubscriberError
            SubscriberErrorCode.SubscriptionTakeFailed) := by
  obtain ⟨⟨p, f⟩, cb, cbs⟩ := s
  subst hp
  subst hf
  exact ⟨rfl, rfl, rfl, rfl, rfl, rfl⟩

/-- C3 witness: on the concrete subscription with pending message 42,
execute succeeds, invokes the callback once, and the summing callback
state becomes 42. -/
theorem execute_one_pending_witness :
    oneSub.rmw.pending = [42] ∧ oneSub.rmw.fault = none
    ∧ (Subscription.execute natCodec oneSub).1 = Except.ok ()
    ∧ (Subscription.execute natCodec oneSub).2.2.count
        Event.invokeCallback = 1
    ∧ (Subscription.execute natCodec oneSub).2.1.cbState = 42 := by
  have h := execute_one_pending natCodec oneSub 42 rfl rfl
  exact ⟨rfl, rfl, h.1, h.2.1, h.2.2.1⟩

/-- C4: every error returned by take other than the exact
SubscriberError SubscriptionTakeFailed signal is returned by execute
unchanged, with no callback invocation and no callback-state change. -/
theorem execute_propagates_other_errors {T W σ : Type}
    (codec : MessageCodec T W) (s : SubState T W σ) (e : RclReturnCode)
    (h : (Subscription.take codec s).1 = Except.error e)
    (hne : e ≠ RclReturnCode.SubscriberError
      SubscriberErrorCode.SubscriptionTakeFailed) :
    (Subscription.execute codec s).1 = Except.error e
    ∧ (Subscription.execute codec s).2.2.count Event.invokeCallback = 0
    ∧ (Subscription.execute codec s).2.1.cbState = s.cbState := by
  obtain ⟨⟨p, f⟩, cb, cbs⟩ := s
  cases f with
  | some e2 =>
    have he : e = e2 := by
      have h2 := h
      simp [Subscription.take, rcl_take] at h2
      exact h2.symm
    subst he
    cases e with
    | SubscriberError c =>
      cases c with
      | SubscriptionInvalid => exact ⟨rfl, rfl, rfl⟩
      | SubscriptionTakeFailed => exact absurd rfl hne
    | Error => exact ⟨rfl, rfl, rfl⟩
    | Timeout => exact ⟨rfl, rfl, rfl⟩
    | BadAlloc => exact ⟨rfl, rfl, rfl⟩
    | InvalidArgument => exact ⟨rfl, rfl, rfl⟩
    | Unsupported => exact ⟨rfl, rfl, rfl⟩
    | AlreadyInit => exact ⟨rfl, rfl, rfl⟩
    | NotInit => exact ⟨rfl, rfl, rfl⟩
    | TopicNameInvalid => exact ⟨rfl, rfl, rfl⟩
  | none =>
    cases p with
    | nil =>
      have he : e = RclReturnCode.SubscriberError
          SubscriberErrorCode.SubscriptionTakeFailed := by
        have h2 := h
        simp [Subscription.take, rcl_take] at h2
        exact h2.symm
      exact absurd he hne
    | cons w rest => simp [Subscription.take, rcl_take] at h

/-- C4 witness: on the concrete subscription whose take fails with the
generic middleware error, execute returns exactly that error and does
not invoke the callback. -/
theorem execute_propagates_other_errors_witness :
    (Subscription.take natCodec faultySub).1
      = Except.error RclReturnCode.Error
    ∧ RclReturnCode.Error ≠ RclReturnCode.SubscriberError
        SubscriberErrorCode.SubscriptionTakeFailed
    ∧ (Subscription.execute natCodec faultySub).1
        = Except.error RclReturnCode.Error
    ∧ (Subscription.execute natCodec faultySub).2.2.count
        Event.invokeCallback = 0 := by
  have h := execute_propagates_other_errors natCodec faultySub
    RclReturnCode.Error rfl (by decide)
  exact ⟨rfl, by decide, h.1, h.2.1⟩

/-- C5: when the topic converts (so the middleware init primitive is
reached) and the init primitive fails with error e, Subscription::new
returns exactly the classified error e and no subscription value; and
when construction succeeds, the returned value is fully live: its
resource state is the freshly initialized one (empty queue, no fault)
and it carries exactly the supplied callback and callback state — never
a partially initialized object. -/
theorem new_init_failure_no_partial {T W σ : Type} (topic : String)
    (qos : QoSProfile) (callback : T → σ → σ) (cbState : σ)
    (e : RclReturnCode) (c : String)
    (hc : CString.new topic = some c) :
    (Subscription.new (W := W) topic qos callback cbState (some e)).1
      = NewResult.err e
    ∧ ∀ sub, (Subscription.new (W := W) topic qos callback cbState none).1
        = NewResult.ok sub →
        sub.rmw = ⟨[], none⟩ ∧ sub.callback = callback
        ∧ sub.cbState = cbState := by
  constructor
  · simp [Subscription.new, hc]
  · intro sub hsub
    simp [Subscription.new, hc] at hsub
    subst hsub
    exact ⟨rfl, rfl, rfl⟩

/-- C5 witness: for the concrete topic chatter, construction with a
failing init primitive returns exactly that error, and successful
construction returns the fully live subscription value. -/
theorem new_init_failure_no_partial_witness :
    CString.new "chatter" = some "chatter"
    ∧ (Subscription.new (T := Nat) (W := Nat) (σ := Nat) "chatter"
        qosSensorData (fun t n => n + t) 0 (some RclReturnCode.Error)).1
        = NewResult.err RclReturnCode.Error
    ∧ emptySub.rmw = ⟨[], none⟩ := by
  have h := new_init_failure_no_partial (T := Nat) (W := Nat) (σ := Nat)
    "chatter" qosSensorData (fun t n => n + t) 0 RclReturnCode.Error
    "chatter" rfl
  exact ⟨rfl, h.1, (h.2 emptySub rfl).1⟩

/-- C6: SubscriptionHandle drop never fails outward: for every result of
the finalize primitive it returns unit, its trace contains exactly one
rclSubscriptionFini call, and at that call both the subscription handle
access and the node handle lock are held simultaneously (each at depth
one in the prefix before the call). -/
theorem drop_never_fails (finiResult : Option RclReturnCode) :
    (SubscriptionHandle.drop finiResult).1 = ()
    ∧ (SubscriptionHandle.drop finiResult).2.count
        Event.rclSubscriptionFini = 1
    ∧ ∀ i : Fin (SubscriptionHandle.drop finiResult).2.length,
        (SubscriptionHandle.drop finiResult).2.get i
          = Event.rclSubscriptionFini →
        handleDepth ((SubscriptionHandle.drop finiResult).2.take i.1) = 1
        ∧ nodeHandleDepth
            ((SubscriptionHandle.drop finiResult).2.take i.1) = 1 := by
  refine ⟨rfl, rfl, ?_⟩
  intro i h
  rcases i with ⟨iv, hv⟩
  have hv5 : iv < 5 := hv
  interval_cases iv
  · exact Event.noConfusion h
  · exact Event.noConfusion h
  · exact ⟨rfl, rfl⟩
  · exact Event.noConfusion h
  · exact Event.noConfusion h

/-- C6 witness: dropping with a failing finalize primitive still returns
unit; the finalize call is at position 2 of the trace, where both locks
are held at depth one. -/
theorem drop_never_fails_witness :
    (SubscriptionHandle.drop (some RclReturnCode.Error)).1 = ()
    ∧ (SubscriptionHandle.drop (some RclReturnCode.Error)).2.get
        ⟨2, by decide⟩ = Event.rclSubscriptionFini
    ∧ handleDepth ((SubscriptionHandle.drop
        (some RclReturnCode.Error)).2.take 2) = 1
    ∧ nodeHandleDepth ((SubscriptionHandle.drop
        (some RclReturnCode.Error)).2.take 2) = 1 := by
  have h := (drop_never_fails (some RclReturnCode.Error)).2.2
    ⟨2, by decide⟩ (by decide)
  exact ⟨(drop_never_fails (some RclReturnCode.Error)).1, by decide,
    h.1, h.2⟩

/-- C7: every successful take returns exactly the codec decode
(from_rmw_message) of the wire message written by the rcl_take
primitive, and its trace shows the single rcl_take call with both
ancillary metadata output arguments passed as null (none). -/
theorem take_decodes_written_message {T W σ : Type}
    (codec : MessageCodec T W) (s : SubState T W σ) (v : T)
    (h : (Subscription.take codec s).1 = Except.ok v) :
    v = codec.from_rmw_message
        (rcl_take s.rmw codec.rmwDefault none none).2.1
    ∧ (Subscription.take codec s).2.2
        = [Event.lockHandle, Event.rclTake none none,
           Event.unlockHandle] := by
  obtain ⟨⟨p, f⟩, cb, cbs⟩ := s
  cases f with
  | some e2 => simp [Subscription.take, rcl_take] at h
  | none =>
    cases p with
    | nil => simp [Subscription.take, rcl_take] at h
    | cons w rest =>
      have hv : v = codec.from_rmw_message w := by
        have h2 := h
        simp [Subscription.take, rcl_take] at h2
        exact h2.symm
      exact ⟨hv, rfl⟩

/-- C7 witness: on the concrete subscription with pending message 42,
take succeeds with the decoded value 42 and its trace records the
rcl_take call with null metadata arguments. -/
theorem take_decodes_written_message_witness :
    (Subscription.take natCodec oneSub).1 = Except.ok 42
    ∧ 42 = natCodec.from_rmw_message
        (rcl_take oneSub.rmw natCodec.rmwDefault none none).2.1
    ∧ (Subscription.take natCodec oneSub).2.2
        = [Event.lockHandle, Event.rclTake none none,
           Event.unlockHandle] := by
  have h := take_decodes_written_message natCodec oneSub 42 rfl
  exact ⟨rfl, h.1, h.2⟩

/-- C8: whenever the topic converts, the options recorded at the
rcl_subscription_init call are exactly the middleware default options
with only the qos field replaced by the supplied profile, and the
profile is transported verbatim, field for field. -/
theorem new_options_default_with_qos {T W σ : Type} (topic : String)
    (qos : QoSProfile) (callback : T → σ → σ) (cbState : σ)
    (initResult : Option RclReturnCode) (c : String)
    (hc : CString.new topic = some c) :
    (Subscription.new (T := T) (W := W) topic qos callback cbState
        initResult).2
      = [Event.lockNodeHandle,
         Event.rclSubscriptionInit
           { rcl_subscription_get_default_options with qos := qos.into },
         Event.unlockNodeHandle]
    ∧ qos.into
        = ⟨qos.history, qos.depth, qos.reliability, qos.durability⟩ := by
  constructor
  · cases initResult with
    | none => simp [Subscription.new, hc]
    | some e => simp [Subscription.new, hc]
  · rfl

/-- C8 witness: for the concrete topic chatter and the concrete qos
profile, the init call receives the default options with that profile
overlaid verbatim. -/
theorem new_options_default_with_qos_witness :
    CString.new "chatter" = some "chatter"
    ∧ (Subscription.new (T := Nat) (W := Nat) "chatter" qosSensorData
        (fun t n => n + t) (0 : Nat) none).2
      = [Event.lockNodeHandle,
         Event.rclSubscriptionInit
           { rcl_subscription_get_default_options with
               qos := qosSensorData.into },
         Event.unlockNodeHandle]
    ∧ qosSensorData.into = ⟨1, 5, 2, 2⟩ := by
  have h := new_options_default_with_qos (T := Nat) (W := Nat) "chatter"
    qosSensorData (fun t n => n + t) (0 : Nat) none "chatter" rfl
  exact ⟨rfl, h.1, h.2⟩

/-- C9: in every execute trace, at every position holding an
invokeCallback event the subscription handle lock is not held (its depth
over the preceding prefix is zero): take acquires and releases the
handle lock entirely within itself before the callback lock is taken,
so a callback calling take on the same subscription does not deadlock on
the handle lock. -/
theorem callback_runs_without_handle_lock {T W σ : Type}
    (codec : MessageCodec T W) (s : SubState T W σ) (i : Nat)
    (hi : i < (Subscription.execute codec s).2.2.length)
    (h : (Subscription.execute codec s).2.2.get ⟨i, hi⟩
      = Event.invokeCallback) :
    handleDepth ((Subscription.execute codec s).2.2.take i) = 0 := by
  obtain ⟨⟨p, f⟩, cb, cbs⟩ := s
  cases f with
  | some e2 =>
    cases e2
    case SubscriberError c =>
      cases c <;>
        (have hi3 : i < 3 := hi; interval_cases i <;>
          exact Event.noConfusion h)
    all_goals
      (have hi3 : i < 3 := hi; interval_cases i <;>
        exact Event.noConfusion h)
  | none =>
    cases p with
    | nil =>
      have hi3 : i < 3 := hi
      interval_cases i <;> exact Event.noConfusion h
    | cons w rest =>
      have hi6 : i < 6 := hi
      interval_cases i
      · exact Event.noConfusion h
      · exact Event.noConfusion h
      · exact Event.noConfusion h
      · exact Event.noConfusion h
      · rfl
      · exact Event.noConfusion h

/-- C9 witness: on the concrete subscription with one pending message,
the invokeCallback event sits at position 4 of the execute trace and the
handle lock depth over the preceding prefix is zero. -/
theorem callback_runs_without_handle_lock_witness :
    4 < (Subscription.execute natCodec oneSub).2.2.length
    ∧ (Subscription.execute natCodec oneSub).2.2.get ⟨4, by decide⟩
        = Event.invokeCallback
    ∧ handleDepth ((Subscription.execute natCodec oneSub).2.2.take 4)
        = 0 := by
  refine ⟨by decide, by decide, ?_⟩
  exact callback_runs_without_handle_lock natCodec oneSub 4 (by decide)
    (by decide)

/-- C10: take never reads, invokes, or modifies the stored user
callback: after any take, the callback and the callback closure state of
the subscription are exactly what they were before, so a subsequent
execute invokes exactly the callback supplied at construction. -/
theorem take_preserves_callback {T W σ : Type} (codec : MessageCodec T W)
    (s : SubState T W σ) :
    (Subscription.take codec s).2.1.callback = s.callback
    ∧ (Subscription.take codec s).2.1.cbState = s.cbState := by
  obtain ⟨⟨p, f⟩, cb, cbs⟩ := s
  cases f with
  | some e2 => exact ⟨rfl, rfl⟩
  | none =>
    cases p with
    | nil => exact ⟨rfl, rfl⟩
    | cons w rest => exact ⟨rfl, rfl⟩

end Rclrs
